import Mathlib

/-!
Verification development for the `windows-vm-setup/create-multiple-vms`
command-line client.

The Python source is shallowly embedded:
* JSON values are the inductive `Json`; Python `dict.get` / subscripting are
  `pyGet` / `pySub`, returning `Except` to make the raised exceptions explicit.
* One HTTP round trip is abstracted to its observable outcome `HttpResult`:
  either a response (status code, raw text, and what `response.json()` yields
  or raises) or an exception raised by the transport layer.
* Each `LibGoClient` method becomes a total function from the `HttpResult` of
  its single round trip to the value the Python method returns; the
  `try/except` bodies make these functions total, which is exactly the
  "never raises past its boundary" behaviour.
* `main` becomes `mainRun`, driven by a parsed `Command` and an oracle
  assigning an `HttpResult` to each control-plane request after the health
  check; the trace of issued control-plane calls and the process outcome
  (a `sys.exit` code, normal termination, or an uncaught-exception crash)
  are returned explicitly.
Printing to stdout is not modelled except where a print expression can raise
(those raises are modelled); reported information is represented by the
structured values the functions return.
-/

/-- JSON values, as produced by `response.json()`. -/
inductive Json where
  | null : Json
  | bool : Bool → Json
  | num : Int → Json
  | str : String → Json
  | arr : List Json → Json
  | obj : List (String × Json) → Json

/-- Python `d.get(key, default)`: on a dict, the value at `key` or the
default; on any other value the attribute access raises `AttributeError`. -/
def pyGet (j : Json) (key : String) (dflt : Json) : Except String Json :=
  match j with
  | .obj fields =>
    match fields.lookup key with
    | some v => .ok v
    | none => .ok dflt
  | _ => .error "AttributeError: get"

/-- Python `d[key]`: on a dict, the value at `key` (raising `KeyError` when
absent); on any other value a `TypeError`. -/
def pySub (j : Json) (key : String) : Except String Json :=
  match j with
  | .obj fields =>
    match fields.lookup key with
    | some v => .ok v
    | none => .error ("KeyError: " ++ key)
  | _ => .error "TypeError: not subscriptable"

/-- Python truthiness of a JSON value (`if vms:`). -/
def jsonTruthy : Json → Bool
  | .null => false
  | .bool b => b
  | .num n => decide (n ≠ 0)
  | .str s => decide (s ≠ "")
  | .arr xs => !xs.isEmpty
  | .obj fs => !fs.isEmpty

/-- The observable outcome of one HTTP round trip made with `requests`:
either a response carrying the status code, the raw body text, and the
result of `response.json()` (`Except.error` = `json()` raises, carrying the
exception text), or an exception raised by the transport layer itself
(timeout, DNS failure, connection refused), carrying `str(e)`. -/
inductive HttpResult where
  | ok : Nat → String → Except String Json → HttpResult
  | exn : String → HttpResult

/-- The error dict the client methods build on failure:
`{"error": message}` or `{"error": message, "status_code": status}`. -/
def errObj (message : String) : Option Nat → Json
  | none => .obj [("error", .str message)]
  | some s => .obj [("error", .str message), ("status_code", .num (Int.ofNat s))]

/-- `LibGoClient.check_health`: true exactly when a response with status 200
was obtained; any exception is caught, printed and mapped to `False`. -/
def check_health : HttpResult → Bool
  | .ok status _ _ => status == 200
  | .exn _ => false

/-- `LibGoClient.create_vm`: 201 is the sole success status; on success the
parsed body is returned; a non-201 response yields the error dict with the
body text and status code; any exception (transport fault, or `json()`
raising on the 201 body) yields the error dict with only the message. -/
def create_vm : HttpResult → Bool × Json
  | .exn msg => (false, errObj msg none)
  | .ok status text body =>
    if status = 201 then
      match body with
      | .ok j => (true, j)
      | .error e => (false, errObj e none)
    else (false, errObj text (some status))

/-- `LibGoClient.start_vm`: 200 is the sole success status; otherwise as
`create_vm`. -/
def start_vm : HttpResult → Bool × Json
  | .exn msg => (false, errObj msg none)
  | .ok status text body =>
    if status = 200 then
      match body with
      | .ok j => (true, j)
      | .error e => (false, errObj e none)
    else (false, errObj text (some status))

/-- `LibGoClient.get_vm`: 200 is the sole success status. -/
def get_vm : HttpResult → Bool × Json
  | .exn msg => (false, errObj msg none)
  | .ok status text body =>
    if status = 200 then
      match body with
      | .ok j => (true, j)
      | .error e => (false, errObj e none)
    else (false, errObj text (some status))

/-- `LibGoClient.list_vms`: on a 200 response it returns
`(True, data.get('vms', []))`; the `.get` raises `AttributeError` when the
parsed body is not a dict, and every exception path (transport fault,
`json()` raising, that `AttributeError`) is caught, printed, and mapped to
`(False, [])`; a non-200 response also yields `(False, [])`. The second
component is the Python value returned, so it is a `Json` (the `vms` field
need not actually be a list). -/
def list_vms : HttpResult → Bool × Json
  | .exn _ => (false, .arr [])
  | .ok status _ body =>
    if status = 200 then
      match body with
      | .ok j =>
        match pyGet j "vms" (.arr []) with
        | .ok v => (true, v)
        | .error _ => (false, .arr [])
      | .error _ => (false, .arr [])
    else (false, .arr [])

/-- The snapshot payload `LibGoClient.create_snapshot` builds and posts:
`{"name": ..., "description": ..., "include_memory": ...}`. -/
structure SnapshotConfig where
  name : String
  description : String
  include_memory : Bool
deriving DecidableEq

/-- `LibGoClient.create_snapshot`, response handling: 201 is the sole
success status; otherwise as `create_vm`. (The posted payload is the
`SnapshotConfig` recorded in the call trace.) -/
def create_snapshot : HttpResult → Bool × Json
  | .exn msg => (false, errObj msg none)
  | .ok status text body =>
    if status = 201 then
      match body with
      | .ok j => (true, j)
      | .error e => (false, errObj e none)
    else (false, errObj text (some status))

/-- `LibGoClient.delete_vm`: 200 and 204 are both success statuses; success
returns the fixed message dict and never touches `response.json()`. -/
def delete_vm : HttpResult → Bool × Json
  | .exn msg => (false, errObj msg none)
  | .ok status text _ =>
    if status = 200 ∨ status = 204 then
      (true, .obj [("message", .str "VM deleted successfully")])
    else (false, errObj text (some status))

/-! ## Template catalog (`VM_TEMPLATES`) -/

/-- `cpu` block of a template; the source key for the last field is
`"socket"`. -/
structure Cpu where
  count : Nat
  cores : Nat
  threads : Nat
  socket : Nat
deriving DecidableEq

/-- `memory` block of a template. -/
structure MemorySpec where
  sizeBytes : Nat
deriving DecidableEq

/-- `disk` block of a template. -/
structure Disk where
  sizeBytes : Nat
  format : String
  bus : String
deriving DecidableEq

/-- One value of the `VM_TEMPLATES` dict: the base image identifier plus
the hardware profile. -/
structure Template where
  template : String
  cpu : Cpu
  memory : MemorySpec
  disk : Disk
deriving DecidableEq

/-- The static catalog `VM_TEMPLATES`, in source order. -/
def VM_TEMPLATES : List (String × Template) :=
  [("windows-11-basic",
    { template := "windows-11"
      cpu := { count := 4, cores := 2, threads := 1, socket := 2 }
      memory := { sizeBytes := 8 * 1024 * 1024 * 1024 }
      disk := { sizeBytes := 100 * 1024 * 1024 * 1024, format := "qcow2", bus := "sata" } }),
   ("windows-11-developer",
    { template := "windows-11"
      cpu := { count := 8, cores := 4, threads := 1, socket := 2 }
      memory := { sizeBytes := 16 * 1024 * 1024 * 1024 }
      disk := { sizeBytes := 250 * 1024 * 1024 * 1024, format := "qcow2", bus := "virtio" } }),
   ("windows-server-web",
    { template := "windows-server-2022"
      cpu := { count := 4, cores := 2, threads := 1, socket := 2 }
      memory := { sizeBytes := 8 * 1024 * 1024 * 1024 }
      disk := { sizeBytes := 80 * 1024 * 1024 * 1024, format := "qcow2", bus := "virtio" } }),
   ("windows-server-database",
    { template := "windows-server-2022"
      cpu := { count := 8, cores := 4, threads := 1, socket := 2 }
      memory := { sizeBytes := 32 * 1024 * 1024 * 1024 }
      disk := { sizeBytes := 500 * 1024 * 1024 * 1024, format := "qcow2", bus := "virtio" } })]

/-! ## VM spec builder (the pure part of `create_windows_vm`) -/

/-- Fixed `network` block attached to every built request. -/
structure Network where
  type : String
  source : String
  model : String
deriving DecidableEq

/-- Fixed `cloudInit` block attached to every built request. -/
structure CloudInit where
  enabled : Bool
deriving DecidableEq

/-- The complete `vm_config` dict posted to `/vms`: name, description, the
template fields spread in verbatim, and the fixed network/cloudInit blocks. -/
structure VmConfig where
  name : String
  description : String
  template : String
  cpu : Cpu
  memory : MemorySpec
  disk : Disk
  network : Network
  cloudInit : CloudInit
deriving DecidableEq

/-- `description or f"Windows VM - {template_type}"`: Python treats both
`None` (flag absent) and the empty string as falsy, so either yields the
synthesized description. -/
def descOrDefault (description : Option String) (template_type : String) : String :=
  match description with
  | none => "Windows VM - " ++ template_type
  | some d => if d = "" then "Windows VM - " ++ template_type else d

/-- The unknown-template failure: `create_windows_vm` prints the attempted
name and the comma-joined list of valid names; both are carried here. -/
structure BuildError where
  attempted : String
  available : List String

/-- The template-resolution and request-construction step of
`create_windows_vm` (the VM Spec Builder): look the template up in
`VM_TEMPLATES`; if absent, fail reporting the attempted name and all valid
names; otherwise assemble the `vm_config` dict. -/
def buildVmConfig (name template_type : String) (description : Option String) :
    Except BuildError VmConfig :=
  match VM_TEMPLATES.lookup template_type with
  | none => .error { attempted := template_type, available := VM_TEMPLATES.map Prod.fst }
  | some t =>
    .ok { name := name
          description := descOrDefault description template_type
          template := t.template
          cpu := t.cpu
          memory := t.memory
          disk := t.disk
          network := { type := "network", source := "default", model := "virtio" }
          cloudInit := { enabled := false } }

/-! ## Provisioning workflow (`create_windows_vm` and `main`) -/

/-- One issued control-plane call, with the payload it carried. The health
check is tracked separately by `mainRun` and is not in this list. -/
inductive ApiCall where
  | createVm : VmConfig → ApiCall
  | startVm : String → ApiCall
  | getVm : String → ApiCall
  | listVms : ApiCall
  | createSnapshot : String → SnapshotConfig → ApiCall
  | deleteVm : String → ApiCall

/-- The success-path printing of `create_windows_vm`:
`vm = result.get('vm', {}); vm.get('uuid'); vm.get('status')`. Each `.get`
raises `AttributeError` when its receiver is not a dict; such a raise is
uncaught in `create_windows_vm` and propagates. -/
def printCreatedVm (result : Json) : Except String Unit :=
  match pyGet result "vm" (.obj []) with
  | .error e => .error e
  | .ok vm =>
    match pyGet vm "uuid" .null with
    | .error e => .error e
    | .ok _ =>
      match pyGet vm "status" .null with
      | .error e => .error e
      | .ok _ => .ok ()

/-- `create_windows_vm(client, name, template_type, description)`: resolve
the template (on failure print the attempted and valid names and return
`False` without any HTTP call); otherwise post the built config with
`create_vm` and return its success flag, printing the created VM on success
(which can raise, propagating to the caller) or the error dict on failure.
Returns the issued control-plane calls alongside the Python return value
(`Except.error` = an exception escaped). -/
def create_windows_vm (r : HttpResult) (name template_type : String)
    (description : Option String) : List ApiCall × Except String Bool :=
  match buildVmConfig name template_type description with
  | .error _ => ([], .ok false)
  | .ok cfg =>
    match create_vm r with
    | (true, result) =>
      ([.createVm cfg],
       match printCreatedVm result with
       | .ok _ => .ok true
       | .error e => .error e)
    | (false, _) => ([.createVm cfg], .ok false)

/-- One element of the JSON batch config file, with each key optional so
that the `KeyError` raised by `config['name']` / `config['template']` on a
missing key is representable. -/
structure RawConfig where
  name : Option String
  template : Option String
  description : Option String
deriving DecidableEq

/-- The body of the `create-multiple` loop for one element:
`create_windows_vm(client, config['name'], config['template'],
config.get('description', ''))` — the subscripts raise `KeyError` on a
missing key before any HTTP call is made; `time.sleep(2)` afterwards is a
no-op for this model. -/
def processItem (r : HttpResult) (c : RawConfig) : List ApiCall × Except String Bool :=
  match c.name with
  | none => ([], .error "KeyError: name")
  | some nm =>
    match c.template with
    | none => ([], .error "KeyError: template")
    | some tt => create_windows_vm r nm tt (some (c.description.getD ""))

/-- The sequential `create-multiple` loop from item index `i` on: the
`i`-th item's creation request is answered by `oracle i`. An uncaught
exception (`Except.error`) stops the loop; otherwise every item is
processed and its boolean outcome collected in order. -/
def runBatch (oracle : Nat → HttpResult) : Nat → List RawConfig →
    List ApiCall × Except String (List Bool)
  | _, [] => ([], .ok [])
  | i, c :: rest =>
    match processItem (oracle i) c with
    | (calls, .error e) => (calls, .error e)
    | (calls, .ok b) =>
      match runBatch oracle (i + 1) rest with
      | (calls2, .error e) => (calls ++ calls2, .error e)
      | (calls2, .ok bs) => (calls ++ calls2, .ok (b :: bs))

/-- The calls the batch run issues, computed pointwise per item: item `i`
contributes exactly the calls of its own `processItem`, independent of
every other item. -/
def batchCalls (oracle : Nat → HttpResult) : Nat → List RawConfig → List ApiCall
  | _, [] => []
  | i, c :: rest => (processItem (oracle i) c).1 ++ batchCalls oracle (i + 1) rest

/-- The per-item outcome, as a function of that item's own config and its
own creation response only: `false` when a key is missing, the template is
unknown, or the creation call did not return 201; `true` otherwise. -/
def itemSuccess (r : HttpResult) (c : RawConfig) : Bool :=
  match c.name, c.template with
  | some _, some tt =>
    match VM_TEMPLATES.lookup tt with
    | none => false
    | some _ => (create_vm r).1
  | _, _ => false

/-- The outcome sequence of a batch, computed pointwise per item in the
original order. -/
def batchOutcomes (oracle : Nat → HttpResult) : Nat → List RawConfig → List Bool
  | _, [] => []
  | i, c :: rest => itemSuccess (oracle i) c :: batchOutcomes oracle (i + 1) rest

/-- A creation response after which `create_windows_vm` cannot crash while
printing: if it is a 201 response with a parsed dict body, the `vm` field,
when present, must itself be a dict. Every failure response (non-201,
transport fault, unparsable body) is well shaped. -/
def wellShaped : HttpResult → Bool
  | .exn _ => true
  | .ok status _ body =>
    if status = 201 then
      match body with
      | .error _ => true
      | .ok (.obj fields) =>
        match fields.lookup "vm" with
        | none => true
        | some (.obj _) => true
        | some _ => false
      | .ok _ => false
    else true

/-- The `--config-file` argument of `create-multiple`, abstracted to the
outcome of `open` + `json.load`: the file may be unreadable (`open` raises,
carrying the `IOError` text), hold invalid JSON (`json.load` raises,
carrying the decode-error text), or parse to a JSON array of objects. -/
inductive ConfigFile where
  | unreadable : String → ConfigFile
  | invalidJson : String → ConfigFile
  | parsed : List RawConfig → ConfigFile

/-- One parsed CLI invocation (the `args` object after `parse_args`).
Optional string flags are `Option String` because argparse yields `None`
when a flag is absent. -/
inductive Command where
  | create : String → String → Option String → Bool → Command
  | createMultiple : Option ConfigFile → Command
  | list : Command
  | delete : String → Command
  | start : String → Command
  | snapshot : String → String → Option String → Bool → Command
  | noCommand : Command

/-- How the process ends: `sys.exit`/fall-off-the-end with an exit code, or
an uncaught exception (a traceback, itself a non-zero exit). -/
inductive RunOutcome where
  | exited : Nat → RunOutcome
  | crashed : String → RunOutcome

/-- The observable behaviour of one run: the control-plane calls issued, in
order, and how the process ended. -/
structure RunResult where
  calls : List ApiCall
  outcome : RunOutcome

/-- `args.description or f"Snapshot of {args.vm_name}"` in the snapshot
branch of `main`: `None` and `""` are both falsy. -/
def snapshotDescription (descArg : Option String) (vm_name : String) : String :=
  match descArg with
  | none => "Snapshot of " ++ vm_name
  | some d => if d = "" then "Snapshot of " ++ vm_name else d

/-- The success-path printing of the snapshot branch:
`snapshot = result.get('snapshot', {}); snapshot.get('name');
snapshot.get('created_at')` — each `.get` can raise `AttributeError`. -/
def printSnapshotResult (result : Json) : Except String Unit :=
  match pyGet result "snapshot" (.obj []) with
  | .error e => .error e
  | .ok s =>
    match pyGet s "name" .null with
    | .error e => .error e
    | .ok _ =>
      match pyGet s "created_at" .null with
      | .error e => .error e
      | .ok _ => .ok ()

/-- The per-VM printing of the `list` branch: `vm['name']`, `vm['status']`,
`vm['cpu']['count']`, `vm['memory']['size_bytes'] / (1024**3)`,
`vm['created_at']` — subscripts raise on missing keys or non-dicts, and the
division raises `TypeError` unless the size is numeric (Python booleans are
numeric). -/
def printVmEntry (vm : Json) : Except String Unit :=
  match pySub vm "name", pySub vm "status", pySub vm "cpu" with
  | .error e, _, _ => .error e
  | .ok _, .error e, _ => .error e
  | .ok _, .ok _, .error e => .error e
  | .ok _, .ok _, .ok cpu =>
    match pySub cpu "count", pySub vm "memory" with
    | .error e, _ => .error e
    | .ok _, .error e => .error e
    | .ok _, .ok mem =>
      match pySub mem "size_bytes" with
      | .error e => .error e
      | .ok (.num _) => pySub vm "created_at" |>.map (fun _ => ())
      | .ok (.bool _) => pySub vm "created_at" |>.map (fun _ => ())
      | .ok _ => .error "TypeError: unsupported operand"

/-- `for vm in vms:` over the extracted list, printing each entry. -/
def printAllVms : List Json → Except String Unit
  | [] => .ok ()
  | vm :: rest =>
    match printVmEntry vm with
    | .error e => .error e
    | .ok _ => printAllVms rest

/-- The default four-VM batch hard-coded in the `create-multiple` branch. -/
def defaultVms : List RawConfig :=
  [{ name := some "win11-workstation", template := some "windows-11-basic",
     description := some "Windows 11 Workstation" },
   { name := some "win11-dev", template := some "windows-11-developer",
     description := some "Windows 11 Development" },
   { name := some "winserver-web", template := some "windows-server-web",
     description := some "Windows Server - Web Server" },
   { name := some "winserver-db", template := some "windows-server-database",
     description := some "Windows Server - Database" }]

/-- The command dispatch of `main`, after a passed health check. `oracle i`
answers the `i`-th control-plane request of the command. Every branch
records the calls it issues; an uncaught exception ends the run as
`crashed`, everything else falls off the end of `main` with exit code 0. -/
def runCommand (oracle : Nat → HttpResult) : Command → RunResult
  | .create name tmpl desc startFlag =>
    match create_windows_vm (oracle 0) name tmpl desc with
    | (calls, .error e) => { calls := calls, outcome := .crashed e }
    | (calls, .ok success) =>
      if success && startFlag then
        -- the start result is printed on both paths; neither print can raise
        { calls := calls ++ [.startVm name], outcome := .exited 0 }
      else
        { calls := calls, outcome := .exited 0 }
  | .createMultiple cfgFile =>
    match cfgFile with
    | some (.unreadable e) => { calls := [], outcome := .crashed e }
    | some (.invalidJson e) => { calls := [], outcome := .crashed e }
    | some (.parsed configs) =>
      match runBatch oracle 0 configs with
      | (calls, .error e) => { calls := calls, outcome := .crashed e }
      | (calls, .ok _) => { calls := calls, outcome := .exited 0 }
    | none =>
      match runBatch oracle 0 defaultVms with
      | (calls, .error e) => { calls := calls, outcome := .crashed e }
      | (calls, .ok _) => { calls := calls, outcome := .exited 0 }
  | .list =>
    match list_vms (oracle 0) with
    | (true, vms) =>
      if jsonTruthy vms then
        match vms with
        | .arr xs =>
          match printAllVms xs with
          | .ok _ => { calls := [.listVms], outcome := .exited 0 }
          | .error e => { calls := [.listVms], outcome := .crashed e }
        | _ =>
          -- iterating a truthy non-list eventually raises a TypeError
          { calls := [.listVms], outcome := .crashed "TypeError: not iterable as vms" }
      else
        { calls := [.listVms], outcome := .exited 0 }
    | (false, _) => { calls := [.listVms], outcome := .exited 0 }
  | .delete name =>
    match delete_vm (oracle 0) with
    | (_, _) => { calls := [.deleteVm name], outcome := .exited 0 }
  | .start name =>
    match start_vm (oracle 0) with
    | (_, _) => { calls := [.startVm name], outcome := .exited 0 }
  | .snapshot vm_name snapshot_name desc includeMemory =>
    let cfg : SnapshotConfig :=
      { name := snapshot_name
        description := snapshotDescription desc vm_name
        include_memory := includeMemory }
    match create_snapshot (oracle 0) with
    | (true, result) =>
      match printSnapshotResult result with
      | .ok _ => { calls := [.createSnapshot vm_name cfg], outcome := .exited 0 }
      | .error e => { calls := [.createSnapshot vm_name cfg], outcome := .crashed e }
    | (false, _) => { calls := [.createSnapshot vm_name cfg], outcome := .exited 0 }
  | .noCommand => { calls := [], outcome := .exited 0 }

/-- `main`: build the client, call `check_health` (answered by
`healthResp`), and on failure print the error and `sys.exit(1)` before any
command dispatch; otherwise dispatch the command. -/
def mainRun (healthResp : HttpResult) (oracle : Nat → HttpResult)
    (cmd : Command) : RunResult :=
  if check_health healthResp then runCommand oracle cmd
  else { calls := [], outcome := .exited 1 }

/-! ## Helper lemmas -/

/-- Successful template resolution yields exactly the assembled config. -/
theorem buildVmConfig_ok (name template_type : String) (d : Option String)
    (tpl : Template) (h : VM_TEMPLATES.lookup template_type = some tpl) :
    buildVmConfig name template_type d = .ok
      { name := name
        description := descOrDefault d template_type
        template := tpl.template
        cpu := tpl.cpu
        memory := tpl.memory
        disk := tpl.disk
        network := { type := "network", source := "default", model := "virtio" }
        cloudInit := { enabled := false } } := by
  unfold buildVmConfig
  rw [h]

/-- Failed template resolution yields exactly the structured error. -/
theorem buildVmConfig_err (name template_type : String) (d : Option String)
    (h : VM_TEMPLATES.lookup template_type = none) :
    buildVmConfig name template_type d =
      .error { attempted := template_type, available := VM_TEMPLATES.map Prod.fst } := by
  unfold buildVmConfig
  rw [h]

/-! ## Claims -/

/-- C1: for every run, if `check_health` returns false then `main` prints a
fatal error and calls `sys.exit(1)` before dispatching any command, so no
`createVm`/`startVm`/`getVm`/`listVms`/`createSnapshot`/`deleteVm` call is
issued and the process terminates with the non-zero exit status 1. -/
theorem health_gate_fail_fast (healthResp : HttpResult) (oracle : Nat → HttpResult)
    (cmd : Command) (h : check_health healthResp = false) :
    mainRun healthResp oracle cmd = { calls := [], outcome := .exited 1 } := by
  simp [mainRun, h]

theorem health_gate_fail_fast_witness :
    check_health (.exn "connection refused") = false ∧
    mainRun (.exn "connection refused") (fun _ => .exn "unreachable") .list
      = { calls := [], outcome := .exited 1 } :=
  ⟨rfl, health_gate_fail_fast (.exn "connection refused") (fun _ => .exn "unreachable") .list rfl⟩

/-- C4: for every template name present in `VM_TEMPLATES`, building with an
empty description succeeds, the built request copies the catalog cpu,
memory and disk fields exactly, and it carries the fixed
`network = {type: network, source: default, model: virtio}` and
`cloudInit = {enabled: false}` blocks. -/
theorem template_completeness (name template_type : String) (tpl : Template)
    (h : VM_TEMPLATES.lookup template_type = some tpl) :
    ∃ cfg, buildVmConfig name template_type (some "") = .ok cfg ∧
      cfg.cpu = tpl.cpu ∧ cfg.memory = tpl.memory ∧ cfg.disk = tpl.disk ∧
      cfg.network = { type := "network", source := "default", model := "virtio" } ∧
      cfg.cloudInit = { enabled := false } :=
  ⟨_, buildVmConfig_ok name template_type (some "") tpl h, rfl, rfl, rfl, rfl, rfl⟩

theorem template_completeness_witness :
    VM_TEMPLATES.lookup "windows-server-database" = some
      { template := "windows-server-2022"
        cpu := { count := 8, cores := 4, threads := 1, socket := 2 }
        memory := { sizeBytes := 32 * 1024 * 1024 * 1024 }
        disk := { sizeBytes := 500 * 1024 * 1024 * 1024, format := "qcow2", bus := "virtio" } } ∧
    (∃ cfg, buildVmConfig "db1" "windows-server-database" (some "") = .ok cfg ∧
      cfg.cpu = { count := 8, cores := 4, threads := 1, socket := 2 } ∧
      cfg.memory = { sizeBytes := 32 * 1024 * 1024 * 1024 } ∧
      cfg.disk = { sizeBytes := 500 * 1024 * 1024 * 1024, format := "qcow2", bus := "virtio" } ∧
      cfg.network = { type := "network", source := "default", model := "virtio" } ∧
      cfg.cloudInit = { enabled := false }) :=
  ⟨rfl, template_completeness "db1" "windows-server-database" _ rfl⟩

/-- C5: for every name and known template, building with an absent or empty
description yields exactly the synthesized description
`"Windows VM - <template name>"`, and a non-empty supplied description is
set verbatim. -/
theorem default_description_synthesis (name template_type d : String) (tpl : Template)
    (h : VM_TEMPLATES.lookup template_type = some tpl) (hd : d ≠ "") :
    (∃ cfg, buildVmConfig name template_type none = .ok cfg ∧
       cfg.description = "Windows VM - " ++ template_type) ∧
    (∃ cfg, buildVmConfig name template_type (some "") = .ok cfg ∧
       cfg.description = "Windows VM - " ++ template_type) ∧
    (∃ cfg, buildVmConfig name template_type (some d) = .ok cfg ∧
       cfg.description = d) := by
  refine ⟨⟨_, buildVmConfig_ok name template_type none tpl h, rfl⟩,
          ⟨_, buildVmConfig_ok name template_type (some "") tpl h, rfl⟩,
          ⟨_, buildVmConfig_ok name template_type (some d) tpl h, ?_⟩⟩
  simp [descOrDefault, hd]

theorem default_description_synthesis_witness :
    VM_TEMPLATES.lookup "windows-11-basic" = some
      { template := "windows-11"
        cpu := { count := 4, cores := 2, threads := 1, socket := 2 }
        memory := { sizeBytes := 8 * 1024 * 1024 * 1024 }
        disk := { sizeBytes := 100 * 1024 * 1024 * 1024, format := "qcow2", bus := "sata" } } ∧
    "custom text" ≠ "" ∧
    ((∃ cfg, buildVmConfig "win1" "windows-11-basic" none = .ok cfg ∧
        cfg.description = "Windows VM - " ++ "windows-11-basic") ∧
     (∃ cfg, buildVmConfig "win1" "windows-11-basic" (some "") = .ok cfg ∧
        cfg.description = "Windows VM - " ++ "windows-11-basic") ∧
     (∃ cfg, buildVmConfig "win1" "windows-11-basic" (some "custom text") = .ok cfg ∧
        cfg.description = "custom text")) :=
  ⟨rfl, by decide,
   default_description_synthesis "win1" "windows-11-basic" "custom text" _ rfl (by decide)⟩

/-- C6: for every template name absent from `VM_TEMPLATES`, the build fails
with an error carrying the attempted name and the full list of valid names,
and `create_windows_vm` issues no control-plane call and returns `False`. -/
theorem unknown_template_rejection (r : HttpResult) (name template_type : String)
    (d : Option String) (h : VM_TEMPLATES.lookup template_type = none) :
    buildVmConfig name template_type d =
      .error { attempted := template_type
               available := ["windows-11-basic", "windows-11-developer",
                             "windows-server-web", "windows-server-database"] } ∧
    create_windows_vm r name template_type d = ([], .ok false) := by
  have hb := buildVmConfig_err name template_type d h
  constructor
  · rw [hb]
    rfl
  · unfold create_windows_vm
    rw [hb]

theorem unknown_template_rejection_witness :
    VM_TEMPLATES.lookup "not-a-template" = none ∧
    (buildVmConfig "x" "not-a-template" (some "") =
      .error { attempted := "not-a-template"
               available := ["windows-11-basic", "windows-11-developer",
                             "windows-server-web", "windows-server-database"] } ∧
     create_windows_vm (.exn "unused") "x" "not-a-template" (some "") = ([], .ok false)) :=
  ⟨rfl, unknown_template_rejection (.exn "unused") "x" "not-a-template" (some "") rfl⟩

/-- C9: every entry of the static catalog `VM_TEMPLATES` has positive cpu
count, cores, threads and sockets, with `count = cores * threads * sockets`
(source key `socket`); the catalog is a constant that nothing in the
program ever mutates, so the invariant holds throughout execution. -/
theorem catalog_cpu_invariant (p : String × Template) (hp : p ∈ VM_TEMPLATES) :
    0 < p.2.cpu.count ∧ 0 < p.2.cpu.cores ∧ 0 < p.2.cpu.threads ∧ 0 < p.2.cpu.socket ∧
    p.2.cpu.count = p.2.cpu.cores * p.2.cpu.threads * p.2.cpu.socket := by
  fin_cases hp <;> refine ⟨by decide, by decide, by decide, by decide, by decide⟩

theorem catalog_cpu_invariant_witness :
    (("windows-11-basic",
      ({ template := "windows-11"
         cpu := { count := 4, cores := 2, threads := 1, socket := 2 }
         memory := { sizeBytes := 8 * 1024 * 1024 * 1024 }
         disk := { sizeBytes := 100 * 1024 * 1024 * 1024, format := "qcow2", bus := "sata" } } : Template))
       ∈ VM_TEMPLATES) ∧
    (0 < (4 : Nat) ∧ 0 < (2 : Nat) ∧ 0 < (1 : Nat) ∧ 0 < (2 : Nat) ∧ (4 : Nat) = 2 * 1 * 2) :=
  ⟨by decide,
   catalog_cpu_invariant
     ("windows-11-basic",
      { template := "windows-11"
        cpu := { count := 4, cores := 2, threads := 1, socket := 2 }
        memory := { sizeBytes := 8 * 1024 * 1024 * 1024 }
        disk := { sizeBytes := 100 * 1024 * 1024 * 1024, format := "qcow2", bus := "sata" } })
     (by decide)⟩

/-- C3 counterexample: at the remote rejection `500` with body text
`"server error"`, `list_vms` returns `(False, [])` — the result carries
neither the failure message nor any `status_code`, so it is not a
structured error, contrary to the claim that every client operation returns
one on failure. -/
theorem list_vms_no_structured_error_cex :
    list_vms (.ok 500 "server error" (.ok (.obj []))) = (false, .arr []) := rfl

/-- C3 (amended): no client operation raises past its boundary (each is a
total function of its round-trip outcome) and every operation returns
`ok = false` on failure. For `create_vm`, `start_vm`, `get_vm`,
`create_snapshot` and `delete_vm` the failure value is the structured error
dict: when a response with a non-success status *for that operation* was
received (non-201 for `create_vm`/`create_snapshot`, non-200 for
`start_vm`/`get_vm`, neither 200 nor 204 for `delete_vm` — so even a 2xx
outside the operation's success set), it carries the response text and that
status; when the round trip raised, or a success-status body failed to
parse (`delete_vm` never parses its success body, so only the round trip
can raise there), it carries the exception text and no status. The
classification is exact: each status variable below is constrained only by
its own operation's success codes, and a success-status response with a
parsable body succeeds. `check_health` returns a bare boolean and
`list_vms` returns `(false, [])`, with no structured error. -/
theorem client_failure_structure (msg text e : String) (j : Json)
    (body : Except String Json) (sC sS sG sN sD sL sH : Nat)
    (hC : sC ≠ 201) (hS : sS ≠ 200) (hG : sG ≠ 200) (hN : sN ≠ 201)
    (hD1 : sD ≠ 200) (hD2 : sD ≠ 204) (hL : sL ≠ 200) (hH : sH ≠ 200) :
    create_vm (.exn msg) = (false, errObj msg none) ∧
    start_vm (.exn msg) = (false, errObj msg none) ∧
    get_vm (.exn msg) = (false, errObj msg none) ∧
    create_snapshot (.exn msg) = (false, errObj msg none) ∧
    delete_vm (.exn msg) = (false, errObj msg none) ∧
    list_vms (.exn msg) = (false, .arr []) ∧
    check_health (.exn msg) = false ∧
    create_vm (.ok sC text body) = (false, errObj text (some sC)) ∧
    start_vm (.ok sS text body) = (false, errObj text (some sS)) ∧
    get_vm (.ok sG text body) = (false, errObj text (some sG)) ∧
    create_snapshot (.ok sN text body) = (false, errObj text (some sN)) ∧
    delete_vm (.ok sD text body) = (false, errObj text (some sD)) ∧
    list_vms (.ok sL text body) = (false, .arr []) ∧
    check_health (.ok sH text body) = false ∧
    create_vm (.ok 201 text (.error e)) = (false, errObj e none) ∧
    start_vm (.ok 200 text (.error e)) = (false, errObj e none) ∧
    get_vm (.ok 200 text (.error e)) = (false, errObj e none) ∧
    create_snapshot (.ok 201 text (.error e)) = (false, errObj e none) ∧
    create_vm (.ok 201 text (.ok j)) = (true, j) ∧
    start_vm (.ok 200 text (.ok j)) = (true, j) ∧
    get_vm (.ok 200 text (.ok j)) = (true, j) ∧
    create_snapshot (.ok 201 text (.ok j)) = (true, j) ∧
    delete_vm (.ok 200 text body) = (true, .obj [("message", .str "VM deleted successfully")]) ∧
    delete_vm (.ok 204 text body) = (true, .obj [("message", .str "VM deleted successfully")]) := by
  refine ⟨rfl, rfl, rfl, rfl, rfl, rfl, rfl,
          ?_, ?_, ?_, ?_, ?_, ?_, ?_,
          ?_, ?_, ?_, ?_, ?_, ?_, ?_, ?_, ?_, ?_⟩
  · simp [create_vm, hC]
  · simp [start_vm, hS]
  · simp [get_vm, hG]
  · simp [create_snapshot, hN]
  · simp [delete_vm, hD1, hD2]
  · simp [list_vms, hL]
  · simp [check_health, hH]
  · simp [create_vm]
  · simp [start_vm]
  · simp [get_vm]
  · simp [create_snapshot]
  · simp [create_vm]
  · simp [start_vm]
  · simp [get_vm]
  · simp [create_snapshot]
  · simp [delete_vm]
  · simp [delete_vm]

theorem client_failure_structure_witness :
    (200 : Nat) ≠ 201 ∧ (201 : Nat) ≠ 200 ∧ (404 : Nat) ≠ 200 ∧ (500 : Nat) ≠ 201 ∧
    (201 : Nat) ≠ 200 ∧ (201 : Nat) ≠ 204 ∧ (500 : Nat) ≠ 200 ∧ (503 : Nat) ≠ 200 ∧
    (create_vm (.exn "timed out") = (false, errObj "timed out" none) ∧
     start_vm (.exn "timed out") = (false, errObj "timed out" none) ∧
     get_vm (.exn "timed out") = (false, errObj "timed out" none) ∧
     create_snapshot (.exn "timed out") = (false, errObj "timed out" none) ∧
     delete_vm (.exn "timed out") = (false, errObj "timed out" none) ∧
     list_vms (.exn "timed out") = (false, .arr []) ∧
     check_health (.exn "timed out") = false ∧
     create_vm (.ok 200 "boom" (.ok .null)) = (false, errObj "boom" (some 200)) ∧
     start_vm (.ok 201 "boom" (.ok .null)) = (false, errObj "boom" (some 201)) ∧
     get_vm (.ok 404 "boom" (.ok .null)) = (false, errObj "boom" (some 404)) ∧
     create_snapshot (.ok 500 "boom" (.ok .null)) = (false, errObj "boom" (some 500)) ∧
     delete_vm (.ok 201 "boom" (.ok .null)) = (false, errObj "boom" (some 201)) ∧
     list_vms (.ok 500 "boom" (.ok .null)) = (false, .arr []) ∧
     check_health (.ok 503 "boom" (.ok .null)) = false ∧
     create_vm (.ok 201 "boom" (.error "bad json")) = (false, errObj "bad json" none) ∧
     start_vm (.ok 200 "boom" (.error "bad json")) = (false, errObj "bad json" none) ∧
     get_vm (.ok 200 "boom" (.error "bad json")) = (false, errObj "bad json" none) ∧
     create_snapshot (.ok 201 "boom" (.error "bad json")) = (false, errObj "bad json" none) ∧
     create_vm (.ok 201 "boom" (.ok .null)) = (true, .null) ∧
     start_vm (.ok 200 "boom" (.ok .null)) = (true, .null) ∧
     get_vm (.ok 200 "boom" (.ok .null)) = (true, .null) ∧
     create_snapshot (.ok 201 "boom" (.ok .null)) = (true, .null) ∧
     delete_vm (.ok 200 "boom" (.ok .null)) = (true, .obj [("message", .str "VM deleted successfully")]) ∧
     delete_vm (.ok 204 "boom" (.ok .null)) = (true, .obj [("message", .str "VM deleted successfully")])) :=
  ⟨by decide, by decide, by decide, by decide, by decide, by decide, by decide, by decide,
   client_failure_structure "timed out" "boom" "bad json" .null (.ok .null)
     200 201 404 500 201 500 503
     (by decide) (by decide) (by decide) (by decide)
     (by decide) (by decide) (by decide) (by decide)⟩

/-- C7 counterexample: a 200 response whose JSON body is the array `[]`
(valid JSON that lacks a `vms` field, but is not an object): `data.get`
raises `AttributeError`, the `except` clause catches it, and the operation
returns `(False, [])` — not `ok = true` with the empty sequence as the
claim states for every 200 response lacking the field. -/
theorem list_vms_nonobject_body_cex :
    list_vms (.ok 200 "[]" (.ok (.arr []))) = (false, .arr []) := rfl

/-- C7 (amended): for every 200 response whose JSON body is an object, if
the object has a `vms` field the operation returns `ok = true` with exactly
that value, and otherwise `ok = true` with the empty sequence; in one
equation, the result is `(true, body.get "vms" default [])`. -/
theorem list_extraction (text : String) (fields : List (String × Json)) :
    list_vms (.ok 200 text (.ok (.obj fields))) =
      (true, ((fields.lookup "vms").getD (.arr []))) := by
  unfold list_vms pyGet
  cases h : fields.lookup "vms" <;> simp [h]

/-- C8 counterexample: with a `create-multiple` run whose `--config-file`
holds invalid JSON, `json.load` raises and nothing in `main` catches it:
the process crashes with that exception instead of reporting the parse
failure, contrary to the claim. -/
theorem malformed_batch_crash_cex :
    (runCommand (fun _ => .exn "unused")
        (.createMultiple (some (.invalidJson "Expecting value: line 1 column 1 (char 0)")))).outcome
      = .crashed "Expecting value: line 1 column 1 (char 0)" := rfl

/-- C8 (amended): a malformed batch configuration file is not handled: an
unreadable file, invalid JSON, or an element missing the required `name`
key each raise an exception that no handler in `main` catches, crashing the
process (only the unknown-template configuration error is reported without
crashing). -/
theorem malformed_batch_crashes (m : String) (oracle : Nat → HttpResult) :
    (runCommand oracle (.createMultiple (some (.unreadable m)))).outcome = .crashed m ∧
    (runCommand oracle (.createMultiple (some (.invalidJson m)))).outcome = .crashed m ∧
    (runCommand oracle (.createMultiple (some (.parsed
        [{ name := none, template := none, description := none }])))).outcome =
      .crashed "KeyError: name" :=
  ⟨rfl, rfl, rfl⟩

/-- Whatever the snapshot round trip returns, the `snapshot` branch posts
exactly the payload built from `snapshotDescription`. -/
theorem runCommand_snapshot_calls (oracle : Nat → HttpResult)
    (vm_name snapshot_name : String) (desc : Option String) (includeMemory : Bool) :
    (runCommand oracle (.snapshot vm_name snapshot_name desc includeMemory)).calls =
      [.createSnapshot vm_name
        { name := snapshot_name
          description := snapshotDescription desc vm_name
          include_memory := includeMemory }] := by
  rcases h : create_snapshot (oracle 0) with ⟨b, result⟩
  cases b
  · simp [runCommand, h]
  · cases hp : printSnapshotResult result <;> simp [runCommand, h, hp]

/-- C10: for every snapshot invocation with no `--description`, the request
posted to the control plane carries the synthesized description
`"Snapshot of <vm_name>"`; a supplied non-empty description is posted
verbatim. -/
theorem snapshot_description_default (vm_name snapshot_name : String)
    (includeMemory : Bool) (oracle : Nat → HttpResult) (d : String) (hd : d ≠ "") :
    (runCommand oracle (.snapshot vm_name snapshot_name none includeMemory)).calls =
      [.createSnapshot vm_name
        { name := snapshot_name
          description := "Snapshot of " ++ vm_name
          include_memory := includeMemory }] ∧
    (runCommand oracle (.snapshot vm_name snapshot_name (some d) includeMemory)).calls =
      [.createSnapshot vm_name
        { name := snapshot_name, description := d, include_memory := includeMemory }] := by
  constructor
  · rw [runCommand_snapshot_calls]
    rfl
  · rw [runCommand_snapshot_calls]
    simp [snapshotDescription, hd]

theorem snapshot_description_default_witness :
    "daily backup" ≠ "" ∧
    ((runCommand (fun _ => .exn "unused") (.snapshot "vm1" "snap1" none true)).calls =
       [.createSnapshot "vm1"
         { name := "snap1", description := "Snapshot of " ++ "vm1", include_memory := true }] ∧
     (runCommand (fun _ => .exn "unused") (.snapshot "vm1" "snap1" (some "daily backup") true)).calls =
       [.createSnapshot "vm1"
         { name := "snap1", description := "daily backup", include_memory := true }]) :=
  ⟨by decide,
   snapshot_description_default "vm1" "snap1" true (fun _ => .exn "unused")
     "daily backup" (by decide)⟩

/-- `dict.get` on a dict never raises, whatever the key holds. -/
theorem pyGet_obj_ok (fields : List (String × Json)) (key : String) (dflt : Json) :
    ∃ v, pyGet (.obj fields) key dflt = .ok v := by
  cases h : fields.lookup key with
  | none => exact ⟨dflt, by simp [pyGet, h]⟩
  | some v => exact ⟨v, by simp [pyGet, h]⟩

/-- The success-path printing cannot raise when the `vm` field resolves to
a dict (including the `{}` default). -/
theorem printCreatedVm_obj (result : Json) (g : List (String × Json))
    (h : pyGet result "vm" (.obj []) = .ok (.obj g)) :
    printCreatedVm result = .ok () := by
  obtain ⟨u, hu⟩ := pyGet_obj_ok g "uuid" Json.null
  obtain ⟨st, hst⟩ := pyGet_obj_ok g "status" Json.null
  simp only [printCreatedVm, h, hu, hst]

/-- Under a well-shaped response, `create_windows_vm` cannot crash: its
return value is `False` when the template is unknown, and otherwise exactly
the success flag of the creation call. -/
theorem create_windows_vm_ok (r : HttpResult) (hw : wellShaped r = true)
    (nm tt : String) (d : Option String) :
    (create_windows_vm r nm tt d).2 =
      .ok (match VM_TEMPLATES.lookup tt with
           | none => false
           | some _ => (create_vm r).1) := by
  cases hl : VM_TEMPLATES.lookup tt with
  | none =>
    unfold create_windows_vm
    rw [buildVmConfig_err nm tt d hl]
  | some tpl =>
    unfold create_windows_vm
    rw [buildVmConfig_ok nm tt d tpl hl]
    cases r with
    | exn m => rfl
    | ok s t b =>
      by_cases hs : s = 201
      · subst hs
        cases b with
        | error e => rfl
        | ok j =>
          have hp : printCreatedVm j = .ok () := by
            cases j with
            | obj fields =>
              cases hv : fields.lookup "vm" with
              | none =>
                refine printCreatedVm_obj _ [] ?_
                simp [pyGet, hv]
              | some v =>
                cases v with
                | obj g =>
                  refine printCreatedVm_obj _ g ?_
                  simp [pyGet, hv]
                | null => simp [wellShaped, hv] at hw
                | bool b2 => simp [wellShaped, hv] at hw
                | num n2 => simp [wellShaped, hv] at hw
                | str s2 => simp [wellShaped, hv] at hw
                | arr a2 => simp [wellShaped, hv] at hw
            | null => simp [wellShaped] at hw
            | bool x => simp [wellShaped] at hw
            | num x => simp [wellShaped] at hw
            | str x => simp [wellShaped] at hw
            | arr x => simp [wellShaped] at hw
          simp [create_vm, hp]
      · simp [create_vm, hs]

/-- Under a well-shaped response and both keys present, the loop body
neither crashes nor depends on anything but its own config and response. -/
theorem processItem_ok (r : HttpResult) (hw : wellShaped r = true) (c : RawConfig)
    (hc : (c.name.isSome && c.template.isSome) = true) :
    (processItem r c).2 = .ok (itemSuccess r c) := by
  rw [Bool.and_eq_true] at hc
  cases hn : c.name with
  | none => rw [hn] at hc; simp at hc
  | some nm =>
    cases ht : c.template with
    | none => rw [ht] at hc; simp at hc
    | some tt =>
      unfold processItem itemSuccess
      rw [hn, ht]
      exact create_windows_vm_ok r hw nm tt (some (c.description.getD ""))

/-- The sequential batch run never aborts early under well-shaped
responses: it equals the pointwise per-item calls and outcomes. -/
theorem runBatch_eq (oracle : Nat → HttpResult)
    (hw : ∀ j, wellShaped (oracle j) = true) (configs : List RawConfig) :
    ∀ i, configs.all (fun c => c.name.isSome && c.template.isSome) = true →
      runBatch oracle i configs =
        (batchCalls oracle i configs, .ok (batchOutcomes oracle i configs)) := by
  induction configs with
  | nil => intro i _; rfl
  | cons c rest ih =>
    intro i hall
    rw [List.all_cons, Bool.and_eq_true] at hall
    have hpi := processItem_ok (oracle i) (hw i) c hall.1
    have hrec := ih (i + 1) hall.2
    cases hp : processItem (oracle i) c with
    | mk calls res =>
      rw [hp] at hpi
      simp only at hpi
      subst hpi
      unfold runBatch batchCalls batchOutcomes
      rw [hp, hrec]

/-- A batch always yields exactly one outcome per item. -/
theorem batchOutcomes_length (oracle : Nat → HttpResult) (configs : List RawConfig) :
    ∀ i, (batchOutcomes oracle i configs).length = configs.length := by
  induction configs with
  | nil => intro i; rfl
  | cons c rest ih =>
    intro i
    unfold batchOutcomes
    rw [List.length_cons, List.length_cons, ih (i + 1)]

/-- C2: in batch mode, under responses that are well shaped (every 201
body is a dict whose `vm` field, if present, is a dict) and configs with
their required keys, the run processes every item: the issued calls and the
final outcomes are exactly the pointwise per-item values in the original
order, one outcome per item, each depending only on that item's own config
and its own response — so one item's creation failure never prevents any
later item — and the whole `create-multiple` command exits normally. -/
theorem batch_failure_isolation (oracle : Nat → HttpResult) (configs : List RawConfig)
    (hkeys : configs.all (fun c => c.name.isSome && c.template.isSome) = true)
    (hw : ∀ j, wellShaped (oracle j) = true) :
    runBatch oracle 0 configs =
      (batchCalls oracle 0 configs, .ok (batchOutcomes oracle 0 configs)) ∧
    (batchOutcomes oracle 0 configs).length = configs.length ∧
    (runCommand oracle (.createMultiple (some (.parsed configs)))).outcome = .exited 0 := by
  have h := runBatch_eq oracle hw configs 0 hkeys
  refine ⟨h, batchOutcomes_length oracle configs 0, ?_⟩
  simp [runCommand, h]

/-- Responses for a 3-item batch where the second creation (index 1) is
rigged to return a non-201 status and the others succeed. -/
def riggedOracle : Nat → HttpResult := fun i =>
  if i = 1 then .ok 500 "invalid specification" (.ok (.obj []))
  else .ok 201 "" (.ok (.obj [("vm", .obj [("uuid", .str "u1"), ("status", .str "created")])]))

/-- A well-formed 3-item batch. -/
def riggedBatch : List RawConfig :=
  [{ name := some "vm-a", template := some "windows-11-basic", description := none },
   { name := some "vm-b", template := some "windows-11-developer", description := some "second" },
   { name := some "vm-c", template := some "windows-server-web", description := none }]

theorem batch_failure_isolation_witness :
    (riggedBatch.all (fun c => c.name.isSome && c.template.isSome) = true) ∧
    batchOutcomes riggedOracle 0 riggedBatch = [true, false, true] ∧
    (runBatch riggedOracle 0 riggedBatch =
       (batchCalls riggedOracle 0 riggedBatch, .ok (batchOutcomes riggedOracle 0 riggedBatch)) ∧
     (batchOutcomes riggedOracle 0 riggedBatch).length = riggedBatch.length ∧
     (runCommand riggedOracle (.createMultiple (some (.parsed riggedBatch)))).outcome = .exited 0) :=
  ⟨rfl, rfl,
   batch_failure_isolation riggedOracle riggedBatch rfl
     (fun j => by unfold riggedOracle; split <;> rfl)⟩
